import Mathlib

/-!
# CourseSearch data-integration pipeline: a shallow embedding

This file embeds the data-integration pipeline of the CourseSearch
repository (course normalizers, rating matcher/merger, Mongo upserter)
as executable Lean definitions and proves/refutes the specified
properties about them.

Conventions of the embedding:
* JavaScript strings are `String`; a missing (`undefined`) string field
  is the empty string, which is exactly the set of falsy string values
  tested by the source (`x || y` on strings is `jsOr`).
* String primitives (`split`, `trim`, `toUpperCase`) are re-implemented
  structurally over `List Char` so that every definition evaluates
  inside the kernel.
* Numbers obtained from `parseFloat` are exact decimals `JsNum`
  (mantissa and decimal scale); `parseInt` yields `Option Int`, with
  `none` playing the role of `NaN`.
* The Mongo store is an explicit list of documents threaded through the
  upserter; `findOneAndUpdate` with `upsert: true` is replace-or-append
  on the (term, subject, catalog_nbr) key.
-/

/-- JavaScript `a || b` for strings: the empty string is the only falsy string. -/
def jsOr (a b : String) : String := if a = "" then b else a

/-- Split a character list at every occurrence of `sep` (JavaScript
`String.prototype.split` with a one-character separator; the result is
never empty and `[[]]` for the empty input, like `"".split(";") === [""]`). -/
def splitOnChar (sep : Char) : List Char → List (List Char)
  | [] => [[]]
  | c :: cs =>
    match splitOnChar sep cs with
    | [] => []
    | h :: t => if c = sep then [] :: h :: t else (c :: h) :: t

/-- JavaScript `s.split(sep)` for a one-character separator. -/
def jsSplit (s : String) (sep : Char) : List String :=
  (splitOnChar sep s.data).map (fun l => ⟨l⟩)

/-- JavaScript `s.trim()`. -/
def jsTrim (s : String) : String :=
  ⟨((s.data.dropWhile Char.isWhitespace).reverse.dropWhile Char.isWhitespace).reverse⟩

/-- JavaScript `s.toUpperCase()` (ASCII, which is all the data contains). -/
def jsToUpper (s : String) : String :=
  ⟨s.data.map Char.toUpper⟩

/-- JavaScript `s.includes(sub)` (via the splitter, so it evaluates). -/
def jsIncludesChar (s : String) (sub : Char) : Bool :=
  s.data.contains sub

/-- An exact decimal number `mant / 10 ^ scale`, the model of a parsed
JavaScript float (GPA values such as `3.41`). -/
structure JsNum where
  mant : Int
  scale : Nat
deriving Repr, DecidableEq

/-- Exact comparison of two decimals, the model of JavaScript `>` on
parsed floats. -/
def JsNum.gt (a b : JsNum) : Bool :=
  a.mant * (10 : Int) ^ b.scale > b.mant * (10 : Int) ^ a.scale

/-- Value of a list of decimal digit characters. -/
def digitsToNat (l : List Char) : Nat :=
  l.foldl (fun a c => a * 10 + (c.toNat - 48)) 0

/-- Model of JavaScript `parseFloat` on the decimal forms occurring in the data:
optional leading whitespace and sign, then digits with an optional fractional
part (at least one digit overall). `none` models `NaN`; like `parseFloat`,
trailing garbage after the numeric prefix is ignored. -/
def jsParseFloat (s : String) : Option JsNum :=
  let cs := (jsTrim s).data
  let signAndRest : Int × List Char :=
    match cs with
    | '-' :: rest => (-1, rest)
    | '+' :: rest => (1, rest)
    | _ => (1, cs)
  let intPart := signAndRest.2.takeWhile Char.isDigit
  let rest := signAndRest.2.dropWhile Char.isDigit
  let fracPart : List Char :=
    match rest with
    | '.' :: r => r.takeWhile Char.isDigit
    | _ => []
  if intPart.isEmpty ∧ fracPart.isEmpty then none
  else some ⟨signAndRest.1 *
    ((digitsToNat intPart : Int) * (10 : Int) ^ fracPart.length + (digitsToNat fracPart : Int)),
    fracPart.length⟩

/-- Model of JavaScript `parseInt` (radix 10): optional leading whitespace and
sign, then a digit prefix; `none` models `NaN`. -/
def jsParseInt (s : String) : Option Int :=
  let cs := (jsTrim s).data
  let signAndRest : Int × List Char :=
    match cs with
    | '-' :: rest => (-1, rest)
    | '+' :: rest => (1, rest)
    | _ => (1, cs)
  let digits := signAndRest.2.takeWhile Char.isDigit
  if digits.isEmpty then none
  else some (signAndRest.1 * (digitsToNat digits : Int))

/-- JavaScript `parseInt(x) || d`: `NaN` and `0` both fall through to `d`. -/
def jsParseIntOr (s : String) (d : Int) : Int :=
  match jsParseInt s with
  | some n => if n = 0 then d else n
  | none => d

/-!
## Rating records and the rating matcher (`server.js`, `findMatchingGPA`)
-/

/-- One instructor-rating record as loaded from `master-gpa-data.csv`
(`loadGPAData` in `server.js`). -/
structure GpaRecord where
  department : String := ""
  courseNumber : String := ""
  instructorName : String := ""
  instructorGPA : String := ""
  instructorRating : String := ""
  instructorDifficulty : String := ""
  instructorLastTaught : String := ""
deriving Repr, DecidableEq

/-- The exact-match predicate used inside `findMatchingGPA`:
`gpa.department === subject && gpa.courseNumber.toString() === catalogNbr.toString()
&& gpa.instructorName === instructor`. -/
def gpaRecordMatches (subject catalogNbr instructor : String) (g : GpaRecord) : Bool :=
  g.department = subject && g.courseNumber = catalogNbr && g.instructorName = instructor

/-- The body of the `for (const instructor of instructors)` loop of
`findMatchingGPA`: the running pair is (`bestMatch`, `bestGPA`). -/
def matcherStep (gpaData : List GpaRecord) (subject catalogNbr : String)
    (acc : Option GpaRecord × JsNum) (instructor : String) : Option GpaRecord × JsNum :=
  match gpaData.find? (gpaRecordMatches subject catalogNbr instructor) with
  | some m =>
    if m.instructorGPA ≠ "" ∧ m.instructorGPA ≠ "—" ∧ m.instructorGPA ≠ "N/A" then
      match jsParseFloat m.instructorGPA with
      | some gpa => if gpa.gt acc.2 then (some m, gpa) else acc
      | none => acc
    else acc
  | none => acc

/-- `findMatchingGPA` from `server.js`: split the instructor-name string on
`;`, trim each name, find the first record matching each name exactly, and
keep the match with the highest parsed GPA (initial best GPA `-1`), skipping
matches whose GPA field is falsy, an em-dash, `"N/A"`, or does not parse. -/
def findMatchingGPA (gpaData : List GpaRecord) (subject catalogNbr instructorNames : String) :
    Option GpaRecord :=
  let instructors := (jsSplit instructorNames ';').map jsTrim
  (instructors.foldl (matcherStep gpaData subject catalogNbr) (none, ⟨-1, 0⟩)).1

/-- The parsed GPA of a record, unless the GPA field is one of the sentinel
non-numeric values (falsy, em-dash, `"N/A"`) or fails to parse. -/
def validGPA (g : GpaRecord) : Option JsNum :=
  if g.instructorGPA ≠ "" ∧ g.instructorGPA ≠ "—" ∧ g.instructorGPA ≠ "N/A" then
    jsParseFloat g.instructorGPA
  else none

/-- The candidate a single instructor name contributes: the first record
matching (subject, catalog number, name) exactly, paired with its valid
parsed GPA. -/
def candidateOf (gpaData : List GpaRecord) (subject catalogNbr instructor : String) :
    Option (GpaRecord × JsNum) :=
  (gpaData.find? (gpaRecordMatches subject catalogNbr instructor)).bind
    (fun m => (validGPA m).map (fun q => (m, q)))

/-- Modelled from the spec's words (§4.2): the candidate matches of the
rating matcher — for each `;`-separated, trimmed instructor name, the first
rating record matching (subject, catalog number, name) exactly, paired with
its parsed GPA, dropping records whose GPA field is a sentinel non-numeric
value. Used only to compare the spec's description with `findMatchingGPA`. -/
def specRatingCandidates (gpaData : List GpaRecord) (subject catalogNbr instructorNames : String) :
    List (GpaRecord × JsNum) :=
  ((jsSplit instructorNames ';').map jsTrim).filterMap
    (candidateOf gpaData subject catalogNbr)

/-- The "keep the strictly higher GPA, first found wins ties" choice between
the best candidate so far and the next one. -/
def specBestStep (acc : Option (GpaRecord × JsNum)) (p : GpaRecord × JsNum) :
    Option (GpaRecord × JsNum) :=
  match acc with
  | none => some p
  | some q => if JsNum.gt p.2 q.2 then some p else acc

/-- Modelled from the spec's words (§4.2): among the candidates, the one with
the highest parsed GPA, ties broken by first found; `none` when there is no
candidate. -/
def specBestRatingMatch (candidates : List (GpaRecord × JsNum)) : Option GpaRecord :=
  (candidates.foldl specBestStep none).map Prod.fst

/-!
## The catalog GPA merge (`server.js`, `/catalog` route, lines 606–636)

`mongoToCourse` produces `Course` model instances whose `sections` and
`discussions` entries carry `teacherName` and (when the persisted document
has `gpaData`) the four overlay fields; the route then walks both lists and
merges fresh GPA matches in.
-/

/-- A section (or discussion) entry of a `Course` model instance as produced
by `mongoToCourse`, restricted to the fields the catalog GPA merge reads and
writes. -/
structure CatalogSection where
  sectionNumber : String := ""
  teacherName : String := ""
  startTime : Int := 0
  endTime : Int := 0
  days : List String := []
  location : String := ""
  status : String := ""
  instructorGPA : String := ""
  instructorRating : String := ""
  instructorDifficulty : String := ""
  instructorLastTaught : String := ""
deriving Repr, DecidableEq

/-- A `Course` model instance as it reaches the catalog GPA merge. -/
structure CatalogCourse where
  mnemonic : String := ""
  number : Int := 0
  title : String := ""
  sections : List CatalogSection := []
  discussions : List CatalogSection := []
deriving Repr, DecidableEq

/-- The per-entry body of both `forEach` loops in the `/catalog` route
(`server.js` 610–620 for sections, 622–633 for discussions): when the entry
has a non-empty, non-`"TBA"` `teacherName` and `findMatchingGPA` finds a
record, copy the four overlay fields (each defaulted to `"N/A"` by `||`);
otherwise leave the entry untouched. -/
def applyGPAToEntry (gpaData : List GpaRecord) (subject catalogNbr : String)
    (s : CatalogSection) : CatalogSection :=
  if s.teacherName ≠ "" ∧ s.teacherName ≠ "TBA" then
    match findMatchingGPA gpaData subject catalogNbr s.teacherName with
    | some m =>
      { s with
        instructorGPA := jsOr m.instructorGPA "N/A"
        instructorRating := jsOr m.instructorRating "N/A"
        instructorDifficulty := jsOr m.instructorDifficulty "N/A"
        instructorLastTaught := jsOr m.instructorLastTaught "N/A" }
    | none => s
  else s

/-- The catalog GPA merge over one course (`server.js` 606–636): both the
`sections` loop and the `discussions` loop apply `applyGPAToEntry`. -/
def catalogMergeGPA (gpaData : List GpaRecord) (subject catalogNbr : String)
    (c : CatalogCourse) : CatalogCourse :=
  { c with
    sections := c.sections.map (applyGPAToEntry gpaData subject catalogNbr)
    discussions := c.discussions.map (applyGPAToEntry gpaData subject catalogNbr) }

/-!
## Section vs. discussion classification (three grouping sites)
-/

/-- The grouping test of `transformSISDataToCourses` (`server.js` line 231):
a record is a discussion exactly when its component is literally `"DIS"`,
`"LAB"`, `"SEM"` or `"SPS"` (case-sensitive). -/
def isDiscussionComponentServer (component : String) : Bool :=
  component = "DIS" || component = "LAB" || component = "SEM" || component = "SPS"

/-- `isLectureSection` as defined identically in `SISProcessor`
(`utils/mongoHelpers.js` 506–509, with `component || ''`) and in
`SISDataProcessor` (`utils/sisDataProcessor.js` 61–64): the uppercased
component is one of `LEC`, `LECTURE`, `SEM`, `SEMINAR`; everything else is
grouped as a discussion. -/
def isLectureSection (component : String) : Bool :=
  ["LEC", "LECTURE", "SEM", "SEMINAR"].contains (jsToUpper component)

/-- Modelled from the spec's words (§4.1): the claimed classification rule —
a record is a discussion exactly when its component code, case-insensitively,
is one of LAB, DIS, SEM, SPS, IND, PRA, TUT. Used only to compare the spec's
rule with the code's grouping sites. -/
def specIsDiscussionComponent (component : String) : Bool :=
  ["LAB", "DIS", "SEM", "SPS", "IND", "PRA", "TUT"].contains (jsToUpper component)

/-!
## Enrollment-status computation (four sites)
-/

/-- JavaScript `parseInt(x) > 0` (false on `NaN`). -/
def jsParseIntPos (s : String) : Bool :=
  match jsParseInt s with
  | some n => decide (0 < n)
  | none => false

/-- `determineStatus` from `utils/mongoHelpers.js` 210–214. -/
def determineStatus (available status : String) : String :=
  if status = "W" then "Wait List"
  else if jsParseIntPos available then "Open"
  else "Closed"

/-- `getEnrollmentStatus` from `server.js` 270–274 (same body as
`determineStatus`). -/
def getEnrollmentStatus (available status : String) : String :=
  if status = "W" then "Wait List"
  else if jsParseIntPos available then "Open"
  else "Closed"

/-- `SISProcessor.determineStatus` from `utils/mongoHelpers.js` 487–501:
waitlist check first, then the raw `enrl_stat_descr` is returned verbatim
when present, and only otherwise is Open/Closed computed from the seats. -/
def sispDetermineStatus (enrlStat enrlStatDescr enrollmentAvailable : String) : String :=
  if enrlStat = "W" ∨ enrlStatDescr = "Wait List" then "Wait List"
  else if enrlStatDescr ≠ "" then enrlStatDescr
  else if jsParseIntOr enrollmentAvailable 0 > 0 then "Open"
  else "Closed"

/-- `SISDataProcessor.determineStatus` from `utils/sisDataProcessor.js`
168–179: the raw `enrl_stat_descr` verbatim when present, else `"Full"` when
enrolled ≥ capacity, else `"Open"` (both remaining branches); enrollment
numbers are modelled in their numeric reading. -/
def sdpDetermineStatus (enrlStatDescr : String) (enrollmentTotal classCapacity : Nat) : String :=
  if enrlStatDescr ≠ "" then enrlStatDescr
  else if enrollmentTotal ≥ classCapacity then "Full"
  else if enrollmentTotal > 0 then "Open"
  else "Open"

/-!
## The legacy normalizer: `SISDataProcessor` (`utils/sisDataProcessor.js`)
with the `Course`/`Section`/`Discussion` models (`models/*.js`)
-/

/-- Kernel-evaluable decimal rendering of a natural number (fuel recursion). -/
def natDigitsAux : Nat → Nat → List Char
  | 0, _ => []
  | fuel + 1, n =>
    if n < 10 then [Char.ofNat (48 + n)]
    else natDigitsAux fuel (n / 10) ++ [Char.ofNat (48 + n % 10)]

/-- Decimal rendering of a natural number. -/
def natToStr (n : Nat) : String := ⟨natDigitsAux (n + 1) n⟩

/-- JavaScript template interpolation of an integer (`` `${number}` ``). -/
def intToStr (i : Int) : String :=
  if i < 0 then "-" ++ natToStr i.natAbs else natToStr i.natAbs

/-- One instructor entry of a raw SIS record. -/
structure SISInstructor where
  name : String := ""
  email : String := ""
deriving Repr, DecidableEq

/-- One meeting entry of a raw SIS record. -/
structure SISMeeting where
  days : String := ""
  start_time : String := ""
  end_time : String := ""
  bldg_cd : String := ""
  room : String := ""
  facility_descr : String := ""
deriving Repr, DecidableEq

/-- The `cls.raw` object read by `SISDataProcessor` (`cls.raw || {}`:
an absent `raw` is the record with every field defaulted). Enrollment
numbers are modelled in their numeric reading. -/
structure RawInner where
  component : String := ""
  class_section : String := ""
  descr : String := ""
  instructors : List SISInstructor := []
  meetings : List SISMeeting := []
  enrl_stat_descr : String := ""
  enrollment_total : Nat := 0
  class_capacity : Nat := 0
deriving Repr, DecidableEq

/-- One element of `sisData.classes` as read by `SISDataProcessor.processClass`. -/
structure RawCls where
  subject : String := ""
  catalog_nbr : String := ""
  component : String := ""
  enrollment_total : Nat := 0
  class_capacity : Nat := 0
  raw : RawInner := {}
deriving Repr, DecidableEq

/-- A `Section` model instance (`models/Section.js`). -/
structure ModelSection where
  sectionNumber : String := ""
  teacherName : String := ""
  startTime : Nat := 0
  endTime : Nat := 0
  averageGPA : JsNum := ⟨0, 0⟩
  currentEnrollment : Nat := 0
  maxEnrollment : Nat := 0
  days : List String := []
  location : String := ""
  status : String := "Unknown"
deriving Repr, DecidableEq

/-- A `Discussion` model instance (`models/Discussion.js`). -/
structure ModelDiscussion where
  sectionNumber : String := ""
  teacherName : String := ""
  startTime : Nat := 0
  endTime : Nat := 0
  currentEnrollment : Nat := 0
  maxEnrollment : Nat := 0
  waitlistTotal : Nat := 0
  waitlistCapacity : Nat := 0
  days : List String := []
  location : String := ""
  status : String := "Unknown"
  type : String := "Discussion"
deriving Repr, DecidableEq

/-- A `Course` model instance (`models/Course.js`). -/
structure ModelCourse where
  mnemonic : String := ""
  number : Int := 0
  title : String := ""
  sections : List ModelSection := []
  discussions : List ModelDiscussion := []
deriving Repr, DecidableEq

/-- `Section.getTimeRange` (`models/Section.js`): a zero start or end time is
rendered as the literal `"TBA"` (formatting of nonzero times is not needed by
any property, so that branch is kept abstractly as its two time components). -/
def modelSectionIsTBARange (s : ModelSection) : Bool :=
  s.startTime = 0 || s.endTime = 0

namespace SDP

/-- `SISDataProcessor.extractTeacherName`. -/
def extractTeacherName (raw : RawInner) : String :=
  match raw.instructors with
  | [] => "TBA"
  | i :: _ => jsOr i.name "TBA"

/-- Whether every character of the list is a decimal digit. -/
def allDigits (l : List Char) : Bool := l.all Char.isDigit

/-- The anchored SIS time pattern `^(\d{1,2})\.(\d{2})\.\d{2}\.\d{6}$`
shared by `SISDataProcessor.convertTimeTo24Hour` and
`mongoHelpers.parseTime`; yields (hours, minutes) on a match. -/
def matchSISTimeFormat (s : String) : Option (Nat × Nat) :=
  match splitOnChar '.' s.data with
  | [h, m, sec, micro] =>
    if 1 ≤ h.length ∧ h.length ≤ 2 ∧ allDigits h ∧ m.length = 2 ∧ allDigits m ∧
        sec.length = 2 ∧ allDigits sec ∧ micro.length = 6 ∧ allDigits micro then
      some (digitsToNat h, digitsToNat m)
    else none
  | _ => none

/-- Match `:(\d{2})\s*(am|pm)` (case-insensitive) directly after the hour
digits; yields (minutes, isPM). -/
def matchMinSuffix (cs : List Char) : Option (Nat × Bool) :=
  match cs with
  | ':' :: d1 :: d2 :: rest =>
    if d1.isDigit ∧ d2.isDigit then
      match rest.dropWhile Char.isWhitespace with
      | a :: p :: _ =>
        if (a = 'A' ∨ a = 'a') ∧ (p = 'M' ∨ p = 'm') then some (digitsToNat [d1, d2], false)
        else if (a = 'P' ∨ a = 'p') ∧ (p = 'M' ∨ p = 'm') then some (digitsToNat [d1, d2], true)
        else none
      | _ => none
    else none
  | _ => none

/-- Match `(\d{1,2}):(\d{2})\s*(AM|PM)/i` at the current position (greedy
two-digit hour first, then backtrack to one digit); yields (hours, minutes,
isPM). -/
def match12At (cs : List Char) : Option (Nat × Nat × Bool) :=
  match cs with
  | d1 :: d2 :: rest =>
    if d1.isDigit then
      if d2.isDigit then
        match matchMinSuffix rest with
        | some (m, pm) => some (digitsToNat [d1, d2], m, pm)
        | none =>
          match matchMinSuffix (d2 :: rest) with
          | some (m, pm) => some (digitsToNat [d1], m, pm)
          | none => none
      else
        match matchMinSuffix (d2 :: rest) with
        | some (m, pm) => some (digitsToNat [d1], m, pm)
        | none => none
    else none
  | _ => none

/-- Unanchored search for the 12-hour pattern, as JavaScript
`timeStr.match(/(\d{1,2}):(\d{2})\s*(AM|PM)/i)` performs. -/
def scan12Hour : List Char → Option (Nat × Nat × Bool)
  | [] => none
  | c :: cs =>
    match match12At (c :: cs) with
    | some r => some r
    | none => scan12Hour cs

/-- `SISDataProcessor.convertTimeTo24Hour`: SIS `HH.MM.SS.microseconds`
format first, a 12-hour clock as fallback, `0` otherwise (including for the
empty string). -/
def convertTimeTo24Hour (timeStr : String) : Nat :=
  if timeStr = "" then 0
  else
    match matchSISTimeFormat timeStr with
    | some (h, m) => h * 100 + m
    | none =>
      match scan12Hour timeStr.data with
      | some (h, m, pm) =>
        let hours := if pm ∧ h ≠ 12 then h + 12 else if ¬ pm ∧ h = 12 then 0 else h
        hours * 100 + m
      | none => 0

/-- `SISDataProcessor.parseTime`: times of the first meeting, `(0, 0)` when
the record has no meetings. -/
def parseTime (raw : RawInner) : Nat × Nat :=
  match raw.meetings with
  | [] => (0, 0)
  | meeting :: _ => (convertTimeTo24Hour meeting.start_time, convertTimeTo24Hour meeting.end_time)

/-- Split between every two consecutive ASCII uppercase letters, the
JavaScript `days.split(/(?<=[A-Z])(?=[A-Z])/)`. -/
def splitUppercaseRuns : List Char → List (List Char)
  | [] => []
  | [c] => [[c]]
  | c :: d :: rest =>
    match splitUppercaseRuns (d :: rest) with
    | [] => [[c]]
    | h :: t =>
      if ('A' ≤ c ∧ c ≤ 'Z') ∧ ('A' ≤ d ∧ d ≤ 'Z') then [c] :: h :: t else (c :: h) :: t

/-- The `dayMap` lookup of `SISDataProcessor.parseDays` (`dayMap[day] || day`). -/
def dayMapLookup (d : String) : String :=
  if d = "M" then "Mo" else if d = "T" then "Tu" else if d = "W" then "We"
  else if d = "TH" then "Th" else if d = "F" then "Fr" else if d = "S" then "Sa"
  else if d = "SU" then "Su" else d

/-- `SISDataProcessor.parseDays`: empty for a record with no meetings or
empty/`"TBA"` days. -/
def parseDays (raw : RawInner) : List String :=
  match raw.meetings with
  | [] => []
  | meeting :: _ =>
    if meeting.days = "" ∨ meeting.days = "TBA" then []
    else (splitUppercaseRuns meeting.days.data).map (fun l => dayMapLookup ⟨l⟩)

/-- `SISDataProcessor.determineDiscussionType`. -/
def determineDiscussionType (raw : RawInner) : String :=
  let u := jsToUpper raw.component
  if u = "LAB" then "Lab" else if u = "DIS" then "Discussion"
  else if u = "IND" then "Independent Study" else if u = "PRA" then "Practicum"
  else if u = "SEM" then "Seminar" else if u = "TUT" then "Tutorial"
  else "Discussion"

/-- `SISDataProcessor.createSection`. -/
def createSection (cls : RawCls) : ModelSection :=
  let raw := cls.raw
  { sectionNumber := raw.class_section
    teacherName := extractTeacherName raw
    startTime := (parseTime raw).1
    endTime := (parseTime raw).2
    currentEnrollment := cls.enrollment_total
    maxEnrollment := cls.class_capacity
    days := parseDays raw
    location := (match raw.meetings with | [] => "TBA" | m :: _ => jsOr m.facility_descr "TBA")
    status := sdpDetermineStatus raw.enrl_stat_descr raw.enrollment_total raw.class_capacity }

/-- `SISDataProcessor.createDiscussion`. -/
def createDiscussion (cls : RawCls) : ModelDiscussion :=
  let raw := cls.raw
  { sectionNumber := raw.class_section
    teacherName := extractTeacherName raw
    startTime := (parseTime raw).1
    endTime := (parseTime raw).2
    currentEnrollment := cls.enrollment_total
    maxEnrollment := cls.class_capacity
    days := parseDays raw
    location := (match raw.meetings with | [] => "TBA" | m :: _ => jsOr m.facility_descr "TBA")
    status := sdpDetermineStatus raw.enrl_stat_descr raw.enrollment_total raw.class_capacity
    type := determineDiscussionType raw }

/-- The processor's `this.courses` map, an insertion-ordered association list. -/
abbrev CourseMap := List (String × ModelCourse)

/-- Lookup in the course map (`this.courses.get`). -/
def mapFind (m : CourseMap) (k : String) : Option ModelCourse :=
  (m.find? (fun p => p.1 = k)).map Prod.snd

/-- In-place update of the course bound to an existing key (mutation of the
object stored in the JavaScript map). -/
def mapReplace (m : CourseMap) (k : String) (c : ModelCourse) : CourseMap :=
  m.map (fun p => if p.1 = k then (k, c) else p)

/-- `SISDataProcessor.processClass`: skip (with a console warning) any record
whose subject is missing, whose catalog number does not parse to a nonzero
integer (`!number`), or whose section number is missing; otherwise get or
create the course keyed `` `${mnemonic} ${number}` `` and push a section or a
discussion onto it according to `isLectureSection`. -/
def processClass (m : CourseMap) (cls : RawCls) : CourseMap :=
  let raw := cls.raw
  let mnemonic := cls.subject
  let component := jsOr cls.component raw.component
  let sectionNumber := raw.class_section
  match jsParseInt cls.catalog_nbr with
  | none => m
  | some n =>
    if mnemonic = "" ∨ n = 0 ∨ sectionNumber = "" then m
    else
      let courseId := mnemonic ++ " " ++ intToStr n
      let course :=
        match mapFind m courseId with
        | some c => c
        | none => { mnemonic := mnemonic, number := n, title := raw.descr }
      let course' :=
        if isLectureSection component then
          { course with sections := course.sections ++ [createSection cls] }
        else
          { course with discussions := course.discussions ++ [createDiscussion cls] }
      match mapFind m courseId with
      | some _ => mapReplace m courseId course'
      | none => m ++ [(courseId, course')]

/-- `SISDataProcessor.processSISData`: clear the course map, fold
`processClass` over the batch, return the map's values in insertion order.
(The typed embedding makes the `Invalid SIS data format` throw unreachable.) -/
def processSISData (classes : List RawCls) : List ModelCourse :=
  (classes.foldl processClass []).map Prod.snd

end SDP

/-- `parseTime` from `utils/mongoHelpers.js` 127–145: `0` for a falsy,
empty or `"TBA"` input, the SIS `HH.MM.SS.microseconds` pattern as
`hours * 100 + minutes`, a plain `parseInt` fallback, `0` otherwise. -/
def mhParseTime (timeStr : String) : Int :=
  if timeStr = "" ∨ timeStr = "TBA" then 0
  else
    match SDP.matchSISTimeFormat timeStr with
    | some (h, m) => (h * 100 + m : Nat)
    | none =>
      match jsParseInt timeStr with
      | some n => n
      | none => 0

/-!
## The current normalizer: `SISProcessor` (`utils/mongoHelpers.js` 229–575)
-/

/-- A raw SIS class item as read by `SISProcessor` (both the nested-`raw`
and the flattened field set; absent arrays are `none`). -/
structure SISClassItem where
  subject : String := ""
  catalog_nbr : String := ""
  descr : String := ""
  course_title : String := ""
  units : String := ""
  crse_attr : String := ""
  course_attributes : String := ""
  crse_attr_value : String := ""
  course_attribute_values : String := ""
  rqmnt_designtn : String := ""
  class_section : String := ""
  class_nbr : String := ""
  component : String := ""
  section_type : String := ""
  class_type : String := ""
  instructors : Option (List SISInstructor) := none
  instructor_names : String := ""
  instructor_emails : String := ""
  meetings : Option (List SISMeeting) := none
  meeting_days : String := ""
  start_times : String := ""
  end_times : String := ""
  facilities : String := ""
  buildings : String := ""
  rooms : String := ""
  enrollment_total : String := ""
  class_capacity : String := ""
  enrollment_available : String := ""
  wait_tot : String := ""
  wait_cap : String := ""
  enrl_stat : String := ""
  enrl_stat_descr : String := ""
  start_dt : String := ""
  start_date : String := ""
  end_dt : String := ""
  end_date : String := ""
  campus : String := ""
  campus_descr : String := ""
  location : String := ""
  location_descr : String := ""
  session_code : String := ""
  session_descr : String := ""
  acad_career : String := ""
  acad_career_descr : String := ""
  acad_group : String := ""
  acad_org : String := ""
  instruction_mode : String := ""
  instruction_mode_descr : String := ""
  grading_basis : String := ""
  topic : String := ""
  combined_section : String := ""
  schedule_print : String := ""
deriving Repr, DecidableEq

/-- The `schedule` sub-object of a section document. -/
structure ScheduleData where
  days : List String := []
  startTime : String := ""
  endTime : String := ""
  location : String := ""
  building : String := ""
  room : String := ""
deriving Repr, DecidableEq

/-- The `enrollment` sub-object of a section document. -/
structure EnrollmentData where
  current : Int := 0
  max : Int := 0
  available : Int := 0
  waitlist : Int := 0
  waitlistCapacity : Int := 0
deriving Repr, DecidableEq

/-- The `dates` sub-object of a section document. -/
structure DatesData where
  start : String := ""
  «end» : String := ""
deriving Repr, DecidableEq

/-- The `metadata` sub-object of a section document. -/
structure MetadataData where
  campus : String := ""
  campusDescr : String := ""
  location : String := ""
  locationDescr : String := ""
  session : String := ""
  sessionDescr : String := ""
  acadCareer : String := ""
  acadCareerDescr : String := ""
  acadGroup : String := ""
  acadOrg : String := ""
  instructionMode : String := ""
  instructionModeDescr : String := ""
  gradingBasis : String := ""
  topic : String := ""
  combinedSection : String := ""
  schedulePrint : String := ""
deriving Repr, DecidableEq

/-- The `gpaData` placeholder of a section document (every field `"N/A"`
until GPA integration). -/
structure GpaPlaceholder where
  instructorGPA : String := "N/A"
  instructorRating : String := "N/A"
  instructorDifficulty : String := "N/A"
  instructorLastTaught : String := "N/A"
deriving Repr, DecidableEq

/-- One section/discussion document inside a course document
(`SISProcessor.createSectionData`). -/
structure SectionData where
  sectionNumber : String := ""
  classNumber : String := ""
  component : String := ""
  sectionType : String := ""
  classType : String := ""
  teacherName : String := ""
  instructor : String := ""
  instructorEmail : String := ""
  schedule : ScheduleData := {}
  enrollment : EnrollmentData := {}
  status : String := ""
  dates : DatesData := {}
  metadata : MetadataData := {}
  gpaData : GpaPlaceholder := {}
deriving Repr, DecidableEq

/-- One MongoDB-ready course document (`SISProcessor.createCourseDocument`,
matching the `MongoCourse` schema). -/
structure CourseDoc where
  term : String := ""
  subject : String := ""
  catalog_nbr : String := ""
  title : String := ""
  units : String := ""
  courseAttributes : String := ""
  courseAttributeValues : String := ""
  requirements : String := ""
  sections : List SectionData := []
  discussions : List SectionData := []
deriving Repr, DecidableEq

/-- JavaScript `array.join('; ')`. -/
def joinWithSemicolon : List String → String
  | [] => ""
  | [s] => s
  | s :: rest => s ++ "; " ++ joinWithSemicolon rest

namespace SISP

/-- `SISProcessor.parseInstructors`: the raw `instructors` array when
present, else the flattened `instructor_names`/`instructor_emails` pair,
else empty. -/
def parseInstructors (c : SISClassItem) : List SISInstructor :=
  match c.instructors with
  | some insts => insts.map (fun i => { name := i.name, email := i.email })
  | none =>
    if c.instructor_names ≠ "" then
      let names := (jsSplit c.instructor_names ';').map jsTrim
      let emails := (jsSplit c.instructor_emails ';').map jsTrim
      names.enum.map (fun p => { name := p.2, email := emails.getD p.1 "" })
    else []

/-- Whether the first list occurs at the head of the second. -/
def startsWithList : List Char → List Char → Bool
  | [], _ => true
  | _ :: _, [] => false
  | a :: as, b :: bs => a = b && startsWithList as bs

/-- Whether the first list occurs anywhere inside the second (JavaScript
`RegExp.test` on a literal pattern). -/
def containsList (needle : List Char) : List Char → Bool
  | [] => startsWithList needle []
  | c :: cs => startsWithList needle (c :: cs) || containsList needle cs

/-- `SISProcessor.parseDays`: test the seven fixed two-letter day patterns
in order and keep the matching ones. -/
def parseDays (daysString : String) : List String :=
  if daysString = "" ∨ daysString = "TBA" then []
  else ["Mo", "Tu", "We", "Th", "Fr", "Sa", "Su"].filter
    (fun d => containsList d.data daysString.data)

/-- The flattened-format fallback of `SISProcessor.parseMeetings`. -/
def flattenedMeetings (c : SISClassItem) : List ScheduleData :=
  if c.meeting_days ≠ "" ∨ c.start_times ≠ "" then
    [{ days := parseDays c.meeting_days, startTime := c.start_times, endTime := c.end_times,
       location := c.facilities, building := c.buildings, room := c.rooms }]
  else []

/-- `SISProcessor.parseMeetings`: the raw `meetings` array when present and
non-empty, else the flattened fields, else empty. -/
def parseMeetings (c : SISClassItem) : List ScheduleData :=
  match c.meetings with
  | some ms =>
    if 0 < ms.length then
      ms.map (fun m =>
        { days := parseDays m.days, startTime := m.start_time, endTime := m.end_time,
          location := m.facility_descr, building := m.bldg_cd, room := m.room })
    else flattenedMeetings c
  | none => flattenedMeetings c

/-- `SISProcessor.parseEnrollment`: `parseInt(x) || 0` per field, except that
`available` falls back to `Math.max(0, max - current)`. -/
def parseEnrollment (c : SISClassItem) : EnrollmentData :=
  let current := jsParseIntOr c.enrollment_total 0
  let maxCap := jsParseIntOr c.class_capacity 0
  let available := jsParseIntOr c.enrollment_available (max 0 (maxCap - current))
  let waitlist := jsParseIntOr c.wait_tot 0
  let waitlistCapacity := jsParseIntOr c.wait_cap 0
  { current := current, max := maxCap, available := available, waitlist := waitlist,
    waitlistCapacity := waitlistCapacity }

/-- `SISProcessor.getDefaultSchedule`. -/
def getDefaultSchedule : ScheduleData :=
  { days := [], startTime := "", endTime := "", location := "TBA", building := "", room := "" }

/-- `SISProcessor.createSectionData`. -/
def createSectionData (c : SISClassItem) : SectionData :=
  let instructors := parseInstructors c
  let instructorName := jsOr (joinWithSemicolon (instructors.map (fun i => i.name))) "TBA"
  let instructorEmail :=
    joinWithSemicolon ((instructors.map (fun i => i.email)).filter (fun e => e ≠ ""))
  let meetings := parseMeetings c
  let schedule := match meetings with | [] => getDefaultSchedule | s :: _ => s
  { sectionNumber := c.class_section
    classNumber := c.class_nbr
    component := c.component
    sectionType := c.section_type
    classType := c.class_type
    teacherName := instructorName
    instructor := instructorName
    instructorEmail := instructorEmail
    schedule := schedule
    enrollment := parseEnrollment c
    status := sispDetermineStatus c.enrl_stat c.enrl_stat_descr c.enrollment_available
    dates := { start := jsOr c.start_dt c.start_date, «end» := jsOr c.end_dt c.end_date }
    metadata :=
      { campus := c.campus, campusDescr := c.campus_descr, location := c.location,
        locationDescr := c.location_descr, session := c.session_code,
        sessionDescr := c.session_descr, acadCareer := c.acad_career,
        acadCareerDescr := c.acad_career_descr, acadGroup := c.acad_group,
        acadOrg := c.acad_org, instructionMode := c.instruction_mode,
        instructionModeDescr := c.instruction_mode_descr, gradingBasis := c.grading_basis,
        topic := c.topic, combinedSection := c.combined_section,
        schedulePrint := c.schedule_print }
    gpaData := {} }

/-- `SISProcessor.createCourseDocument`. -/
def createCourseDocument (c : SISClassItem) (term : String) : CourseDoc :=
  { term := term
    subject := c.subject
    catalog_nbr := c.catalog_nbr
    title := jsOr c.descr (jsOr c.course_title "No title available")
    units := c.units
    courseAttributes := jsOr c.crse_attr c.course_attributes
    courseAttributeValues := jsOr c.crse_attr_value c.course_attribute_values
    requirements := c.rqmnt_designtn
    sections := []
    discussions := [] }

/-- The processor's `this.coursesMap`, an insertion-ordered association list. -/
abbrev DocMap := List (String × CourseDoc)

/-- Lookup in the course-document map (`this.coursesMap.get`). -/
def mapFindDoc (m : DocMap) (k : String) : Option CourseDoc :=
  (m.find? (fun p => p.1 = k)).map Prod.snd

/-- In-place update of the document bound to an existing key. -/
def mapReplaceDoc (m : DocMap) (k : String) (d : CourseDoc) : DocMap :=
  m.map (fun p => if p.1 = k then (k, d) else p)

/-- `SISProcessor.processClass`: get or create the course document keyed
`` `${subject}-${catalog_nbr}` `` and push the section data onto `sections`
or `discussions` according to `isLectureSection`. Note: unlike
`SISDataProcessor.processClass`, there is no missing-identity check here. -/
def processClass (m : DocMap) (c : SISClassItem) (term : String) : DocMap :=
  let courseKey := c.subject ++ "-" ++ c.catalog_nbr
  let courseDoc :=
    match mapFindDoc m courseKey with
    | some d => d
    | none => createCourseDocument c term
  let sectionData := createSectionData c
  let courseDoc' :=
    if isLectureSection c.component then
      { courseDoc with sections := courseDoc.sections ++ [sectionData] }
    else
      { courseDoc with discussions := courseDoc.discussions ++ [sectionData] }
  match mapFindDoc m courseKey with
  | some _ => mapReplaceDoc m courseKey courseDoc'
  | none => m ++ [(courseKey, courseDoc')]

/-- `SISProcessor.processSISResponse`: `this.coursesMap.clear()` first (so
the prior instance state is discarded), then fold `processClass` over the
batch and return the map's values in insertion order. (The typed embedding
makes the `Invalid SIS response format` throw unreachable.) -/
def processSISResponse (priorState : DocMap) (classes : List SISClassItem) (term : String) :
    List CourseDoc :=
  let cleared : DocMap := []
  let _ := priorState
  (classes.foldl (fun m c => processClass m c term) cleared).map Prod.snd

/-- `SISProcessor.validateCourseDocument`, as its error list (`isValid` is
its emptiness). -/
def validateCourseDocument (d : CourseDoc) : List String :=
  (if d.term = "" then ["Missing term"] else []) ++
  (if d.subject = "" then ["Missing subject"] else []) ++
  (if d.catalog_nbr = "" then ["Missing catalog number"] else []) ++
  (if d.title = "" then ["Missing title"] else []) ++
  (if d.sections.length = 0 ∧ d.discussions.length = 0 then
    ["Course has no sections or discussions"] else [])

end SISP

/-!
## The store upserter (`utils/mongoUpserter.js`)
-/

/-- The compound key of the unique index on the course collection
(`courseSchema.index({ term: 1, subject: 1, catalog_nbr: 1 }, { unique: true })`). -/
def docKey (d : CourseDoc) : String × String × String := (d.term, d.subject, d.catalog_nbr)

/-- The course collection: the persisted documents, in insertion order. -/
abbrev Store := List CourseDoc

/-- `MongoCourse.findOne({ term, subject, catalog_nbr })`. -/
def storeFindOne (st : Store) (k : String × String × String) : Option CourseDoc :=
  st.find? (fun d => docKey d = k)

/-- `MongoCourse.findOneAndUpdate(filter, courseDoc, { upsert: true })`:
replace the document bearing the key when it exists, append otherwise. -/
def storeUpsert (st : Store) (doc : CourseDoc) : Store :=
  if (st.find? (fun d => docKey d = docKey doc)).isSome then
    st.map (fun d => if docKey d = docKey doc then doc else d)
  else st ++ [doc]

/-- `MongoCourse.deleteMany({ term, subject })`. -/
def storeDeleteMany (st : Store) (term subject : String) : Store :=
  st.filter (fun d => ¬ (d.term = term ∧ d.subject = subject))

/-- The upserter's `this.stats`. -/
structure UpsertStats where
  inserted : Nat := 0
  updated : Nat := 0
  failed : Nat := 0
  errors : List (String × String) := []
deriving Repr, DecidableEq

/-- `MongoUpserter.resetStats`. -/
def resetStats : UpsertStats := {}

/-- One iteration of the `bulkUpsertCourses` loop. `fails` is the oracle for
a store rejection (a `runValidators` or connectivity error thrown by either
store call): `some msg` makes the iteration take the `catch` branch, which
counts the document as failed, records its identity and message, and — with
the default `continueOnError = true` — lets the loop continue; otherwise the
iteration does the read-before-write existence check followed by the atomic
upsert, counting `updated` or `inserted` accordingly. -/
def bulkUpsertStep (fails : CourseDoc → Option String) (acc : Store × UpsertStats)
    (doc : CourseDoc) : Store × UpsertStats :=
  match fails doc with
  | some msg =>
    (acc.1,
      { acc.2 with
        failed := acc.2.failed + 1
        errors := acc.2.errors ++ [(doc.subject ++ " " ++ doc.catalog_nbr, msg)] })
  | none =>
    let isUpdate := (storeFindOne acc.1 (docKey doc)).isSome
    let st := storeUpsert acc.1 doc
    if isUpdate then (st, { acc.2 with updated := acc.2.updated + 1 })
    else (st, { acc.2 with inserted := acc.2.inserted + 1 })

/-- `MongoUpserter.bulkUpsertCourses` with the default options: reset the
statistics, then fold the per-document step over the batch. The incoming
`stats` argument is the instance state before the call, discarded by
`this.resetStats()`. -/
def bulkUpsertCourses (fails : CourseDoc → Option String) (st : Store) (docs : List CourseDoc)
    (stats : UpsertStats) : Store × UpsertStats :=
  let _ := stats
  docs.foldl (bulkUpsertStep fails) (st, resetStats)

/-- `MongoUpserter.upsertSubject`: with `replaceExisting`, first delete every
persisted course for (term, subject), then bulk-upsert the batch. -/
def upsertSubject (fails : CourseDoc → Option String) (st : Store) (docs : List CourseDoc)
    (term subject : String) (replaceExisting : Bool) (stats : UpsertStats) :
    Store × UpsertStats :=
  let st1 := if replaceExisting then storeDeleteMany st term subject else st
  bulkUpsertCourses fails st1 docs stats

/-!
## Concrete sample data used by the claim theorems and witnesses
-/

/-- A rating index with a record for the discussion instructor, for C2. -/
def c2GpaData : List GpaRecord :=
  [{ department := "CS", courseNumber := "1110", instructorName := "Jane Doe",
     instructorGPA := "3.50", instructorRating := "4.2/5",
     instructorDifficulty := "2.0/5", instructorLastTaught := "Fall 2025" }]

/-- The discussion entry that receives a rating overlay, for C2. -/
def c2Discussion : CatalogSection :=
  { sectionNumber := "101", teacherName := "Jane Doe",
    instructorGPA := "N/A", instructorRating := "N/A",
    instructorDifficulty := "N/A", instructorLastTaught := "N/A" }

/-- A course whose only discussion has a matching instructor, for C2. -/
def c2Course : CatalogCourse :=
  { mnemonic := "CS", number := 1110, title := "Intro", sections := [],
    discussions := [c2Discussion] }

/-- A sample enriched batch of two CS courses for the upsert properties. -/
def sampleDocA : CourseDoc :=
  { term := "1262", subject := "CS", catalog_nbr := "1110", title := "Introduction" }

/-- A second sample course with a distinct catalog number. -/
def sampleDocB : CourseDoc :=
  { term := "1262", subject := "CS", catalog_nbr := "2120", title := "Discrete Math" }

/-- A persisted CS course from an earlier sync run, bearing a catalog number
absent from the new batch. -/
def staleDocC : CourseDoc :=
  { term := "1262", subject := "CS", catalog_nbr := "9999", title := "Retired Course" }

/-- The course-map invariant: keys are unique and every key is the
`subject-catalog_nbr` string of its own document. -/
def docMapInv (m : SISP.DocMap) : Prop :=
  (m.map Prod.fst).Nodup ∧ ∀ p ∈ m, p.1 = p.2.subject ++ "-" ++ p.2.catalog_nbr

/-!
## Supporting lemmas for the rating matcher (C1)
-/

/-- The matcher's initial `bestGPA = -1`. -/
def initBestGPA : JsNum := ⟨-1, 0⟩

/-- A spec-side "best candidate so far", as the matcher's accumulator pair. -/
def encodeBest : Option (GpaRecord × JsNum) → Option GpaRecord × JsNum
  | none => (none, initBestGPA)
  | some p => (some p.1, p.2)

lemma encodeBest_fst (b : Option (GpaRecord × JsNum)) : (encodeBest b).1 = b.map Prod.fst := by
  cases b <;> rfl
lemma matcherStep_of_candidate_none (gpaData : List GpaRecord)
    (subject catalogNbr instructor : String) (acc : Option GpaRecord × JsNum)
    (h : candidateOf gpaData subject catalogNbr instructor = none) :
    matcherStep gpaData subject catalogNbr acc instructor = acc := by
  unfold candidateOf validGPA at h
  cases hf : gpaData.find? (gpaRecordMatches subject catalogNbr instructor) with
  | none => simp [matcherStep, hf]
  | some m =>
    rw [hf] at h
    simp only [Option.some_bind] at h
    simp only [matcherStep, hf]
    by_cases hcond : m.instructorGPA ≠ "" ∧ m.instructorGPA ≠ "—" ∧ m.instructorGPA ≠ "N/A"
    · rw [if_pos hcond] at h
      rw [if_pos hcond]
      cases hp : jsParseFloat m.instructorGPA with
      | none => rfl
      | some q => rw [hp] at h; simp at h
    · rw [if_neg hcond]

lemma matcherStep_of_candidate_some (gpaData : List GpaRecord)
    (subject catalogNbr instructor : String) (acc : Option GpaRecord × JsNum)
    (p : GpaRecord × JsNum)
    (h : candidateOf gpaData subject catalogNbr instructor = some p) :
    matcherStep gpaData subject catalogNbr acc instructor =
      (if p.2.gt acc.2 then (some p.1, p.2) else acc) := by
  unfold candidateOf validGPA at h
  cases hf : gpaData.find? (gpaRecordMatches subject catalogNbr instructor) with
  | none => rw [hf] at h; simp at h
  | some m =>
    rw [hf] at h
    simp only [Option.some_bind] at h
    simp only [matcherStep, hf]
    by_cases hcond : m.instructorGPA ≠ "" ∧ m.instructorGPA ≠ "—" ∧ m.instructorGPA ≠ "N/A"
    · rw [if_pos hcond] at h
      rw [if_pos hcond]
      cases hp : jsParseFloat m.instructorGPA with
      | none => rw [hp] at h; simp at h
      | some q =>
        rw [hp] at h
        simp only [Option.map_some'] at h
        injection h with h2
        subst h2
        rfl
    · rw [if_neg hcond] at h
      simp at h

/-- If `a ≤ b` (as decimal values) and `c > b`, then `a ≯ c`. -/
lemma jsNumGt_false_of_le_of_gt {a b c : JsNum} (h1 : a.gt b = false) (h2 : c.gt b = true) :
    a.gt c = false := by
  simp only [JsNum.gt, decide_eq_false_iff_not, decide_eq_true_eq, not_lt] at h1 h2 ⊢
  have hbp : (0 : Int) < 10 ^ b.scale := pow_pos (by norm_num) _
  have hap : (0 : Int) < 10 ^ a.scale := pow_pos (by norm_num) _
  have hcp : (0 : Int) < 10 ^ c.scale := pow_pos (by norm_num) _
  have m1 := mul_le_mul_of_nonneg_right h1 (le_of_lt hcp)
  have m2 := mul_lt_mul_of_pos_right h2 hap
  nlinarith [m1, m2, hbp]

lemma matcher_foldl_spec (gpaData : List GpaRecord) (subject catalogNbr : String) :
    ∀ (is : List String) (b : Option (GpaRecord × JsNum)),
      (∀ p, b = some p → p.2.gt initBestGPA = true) →
      is.foldl (matcherStep gpaData subject catalogNbr) (encodeBest b) =
        encodeBest
          (((is.filterMap (candidateOf gpaData subject catalogNbr)).filter
              (fun p => p.2.gt initBestGPA)).foldl specBestStep b) := by
  intro is
  induction is with
  | nil => intro b _; rfl
  | cons i rest ih =>
    intro b hb
    rw [List.foldl_cons]
    cases hc : candidateOf gpaData subject catalogNbr i with
    | none =>
      rw [matcherStep_of_candidate_none _ _ _ _ _ hc, List.filterMap_cons_none hc]
      exact ih b hb
    | some p =>
      rw [matcherStep_of_candidate_some _ _ _ _ _ _ hc, List.filterMap_cons_some hc]
      cases hpi : p.2.gt initBestGPA with
      | true =>
        have hfil :
            ((p :: rest.filterMap (candidateOf gpaData subject catalogNbr)).filter
              (fun q => q.2.gt initBestGPA)) =
            p :: ((rest.filterMap (candidateOf gpaData subject catalogNbr)).filter
              (fun q => q.2.gt initBestGPA)) := by
          simp [List.filter_cons, hpi]
        rw [hfil, List.foldl_cons]
        cases b with
        | none =>
          have hacc : (if p.2.gt (encodeBest none).2 then ((some p.1, p.2) :
              Option GpaRecord × JsNum) else encodeBest none) = encodeBest (some p) := by
            simp [encodeBest, hpi]
          have hstep : specBestStep none p = some p := rfl
          rw [hacc, hstep]
          exact ih (some p) (by intro r hr; injection hr with hr2; rw [← hr2]; exact hpi)
        | some q =>
          have hq := hb q rfl
          cases hpq : p.2.gt q.2 with
          | true =>
            have hacc : (if p.2.gt (encodeBest (some q)).2 then ((some p.1, p.2) :
                Option GpaRecord × JsNum) else encodeBest (some q)) = encodeBest (some p) := by
              simp [encodeBest, hpq]
            have hstep : specBestStep (some q) p = some p := by simp [specBestStep, hpq]
            rw [hacc, hstep]
            exact ih (some p) (by intro r hr; injection hr with hr2; rw [← hr2]; exact hpi)
          | false =>
            have hacc : (if p.2.gt (encodeBest (some q)).2 then ((some p.1, p.2) :
                Option GpaRecord × JsNum) else encodeBest (some q)) = encodeBest (some q) := by
              simp [encodeBest, hpq]
            have hstep : specBestStep (some q) p = some q := by simp [specBestStep, hpq]
            rw [hacc, hstep]
            exact ih (some q) hb
      | false =>
        have hfil :
            ((p :: rest.filterMap (candidateOf gpaData subject catalogNbr)).filter
              (fun q => q.2.gt initBestGPA)) =
            ((rest.filterMap (candidateOf gpaData subject catalogNbr)).filter
              (fun q => q.2.gt initBestGPA)) := by
          simp [List.filter_cons, hpi]
        rw [hfil]
        cases b with
        | none =>
          have hacc : (if p.2.gt (encodeBest none).2 then ((some p.1, p.2) :
              Option GpaRecord × JsNum) else encodeBest none) = encodeBest none := by
            simp [encodeBest, hpi]
          rw [hacc]
          exact ih none hb
        | some q =>
          have hq := hb q rfl
          have hpq : p.2.gt q.2 = false := jsNumGt_false_of_le_of_gt hpi hq
          have hacc : (if p.2.gt (encodeBest (some q)).2 then ((some p.1, p.2) :
              Option GpaRecord × JsNum) else encodeBest (some q)) = encodeBest (some q) := by
            simp [encodeBest, hpq]
          rw [hacc]
          exact ih (some q) hb

/-!
## C1 — the rating matcher
-/

/-- **C1, counterexample.** The claim says the matcher returns the match with
the highest parsed GPA among the exact matches (excluding only sentinel
non-numeric GPA fields). On a rating index whose only matching record has the
numeric GPA `-2`, the spec-described best match is that record, but
`findMatchingGPA` returns no match: the loop's initial `bestGPA = -1` also
silently discards every parsed GPA that is not greater than `-1`. -/
theorem c1_rating_matcher_counterexample :
    findMatchingGPA
      [{ department := "CS", courseNumber := "1110", instructorName := "A",
         instructorGPA := "-2" }] "CS" "1110" "A" = none ∧
    specBestRatingMatch (specRatingCandidates
      [{ department := "CS", courseNumber := "1110", instructorName := "A",
         instructorGPA := "-2" }] "CS" "1110" "A") =
      some { department := "CS", courseNumber := "1110", instructorName := "A",
             instructorGPA := "-2" } := by
  exact ⟨by decide, by decide⟩

/-- **C1 (amended).** For every rating index, course identity and
semicolon-joined instructor-name string, `findMatchingGPA` splits on `;`,
trims each name, takes for each candidate name the first record exactly
matching (subject, catalog number as string, name), excludes matches whose
GPA field is a sentinel non-numeric value ("N/A", em-dash, empty, or
unparseable) **or whose parsed GPA is not greater than −1** (the loop's
initial best-GPA sentinel), and returns the remaining match with the highest
parsed GPA, ties broken by first found; if nothing remains it returns no
match. -/
theorem c1_rating_matcher_amended (gpaData : List GpaRecord)
    (subject catalogNbr instructorNames : String) :
    findMatchingGPA gpaData subject catalogNbr instructorNames =
      specBestRatingMatch
        ((specRatingCandidates gpaData subject catalogNbr instructorNames).filter
          (fun p => p.2.gt initBestGPA)) := by
  show (((jsSplit instructorNames ';').map jsTrim).foldl
      (matcherStep gpaData subject catalogNbr) (encodeBest none)).1 =
    specBestRatingMatch
      ((((jsSplit instructorNames ';').map jsTrim).filterMap
          (candidateOf gpaData subject catalogNbr)).filter
        (fun p => p.2.gt initBestGPA))
  rw [matcher_foldl_spec gpaData subject catalogNbr _ none (fun p hp => by cases hp),
    encodeBest_fst]
  rfl

/-!
## C2 — the catalog rating merge and discussions
-/

/-- **C2, counterexample.** The claim says the rating merge leaves every
discussion unchanged and never gives it a rating overlay. But the `/catalog`
route's discussion loop (`server.js` 622–633) merges GPA matches into
discussions exactly as it does into sections: on a concrete course whose
discussion instructor has a rating record, the merged discussion differs
from the original and carries the matched GPA `"3.50"`. -/
theorem c2_discussion_overlay_counterexample :
    (catalogMergeGPA c2GpaData "CS" "1110" c2Course).discussions ≠ c2Course.discussions ∧
    ((catalogMergeGPA c2GpaData "CS" "1110" c2Course).discussions.map
      (fun d => d.instructorGPA)) = ["3.50"] := by
  exact ⟨by decide, by decide⟩

/-- **C2 (amended).** The catalog rating merge applies the *same* overlay
rule to sections and discussions: both lists are mapped by the same
per-entry merge, an entry (section or discussion) whose `teacherName` is
empty or `"TBA"` or has no GPA match is left unchanged, and an entry with a
GPA match — discussion included — receives the four overlay fields of the
matched record (each defaulted to `"N/A"` when empty). -/
theorem c2_rating_merge_amended (gpaData : List GpaRecord) (subject catalogNbr : String)
    (c : CatalogCourse) :
    ((catalogMergeGPA gpaData subject catalogNbr c).sections =
        c.sections.map (applyGPAToEntry gpaData subject catalogNbr) ∧
      (catalogMergeGPA gpaData subject catalogNbr c).discussions =
        c.discussions.map (applyGPAToEntry gpaData subject catalogNbr)) ∧
    (∀ d : CatalogSection,
      (d.teacherName = "" ∨ d.teacherName = "TBA" ∨
        findMatchingGPA gpaData subject catalogNbr d.teacherName = none) →
      applyGPAToEntry gpaData subject catalogNbr d = d) ∧
    (∀ d m, d.teacherName ≠ "" → d.teacherName ≠ "TBA" →
      findMatchingGPA gpaData subject catalogNbr d.teacherName = some m →
      applyGPAToEntry gpaData subject catalogNbr d =
        { d with instructorGPA := jsOr m.instructorGPA "N/A",
                 instructorRating := jsOr m.instructorRating "N/A",
                 instructorDifficulty := jsOr m.instructorDifficulty "N/A",
                 instructorLastTaught := jsOr m.instructorLastTaught "N/A" }) := by
  refine ⟨⟨rfl, rfl⟩, ?_, ?_⟩
  · intro d hd
    unfold applyGPAToEntry
    rcases hd with h | h | h
    · rw [if_neg]
      simp [h]
    · rw [if_neg]
      simp [h]
    · by_cases ht : d.teacherName ≠ "" ∧ d.teacherName ≠ "TBA"
      · rw [if_pos ht, h]
      · rw [if_neg ht]
  · intro d m h1 h2 h3
    unfold applyGPAToEntry
    rw [if_pos ⟨h1, h2⟩, h3]

/-- Witness for C2 (amended): at the concrete course of the counterexample,
the discussion list is mapped by the per-entry merge, and the matching
discussion receives the overlay. -/
theorem c2_rating_merge_amended_witness :
    (catalogMergeGPA c2GpaData "CS" "1110" c2Course).discussions =
      c2Course.discussions.map (applyGPAToEntry c2GpaData "CS" "1110") ∧
    applyGPAToEntry c2GpaData "CS" "1110" c2Discussion =
      { c2Discussion with
          instructorGPA := "3.50", instructorRating := "4.2/5",
          instructorDifficulty := "2.0/5", instructorLastTaught := "Fall 2025" } := by
  refine ⟨(c2_rating_merge_amended c2GpaData "CS" "1110" c2Course).1.2, ?_⟩
  have h := (c2_rating_merge_amended c2GpaData "CS" "1110" c2Course).2.2 c2Discussion
    { department := "CS", courseNumber := "1110", instructorName := "Jane Doe",
      instructorGPA := "3.50", instructorRating := "4.2/5",
      instructorDifficulty := "2.0/5", instructorLastTaught := "Fall 2025" }
    (by decide) (by decide) (by decide)
  rw [h]
  decide

/-!
## C3 — section vs. discussion classification
-/

/-- **C3, counterexample.** The claim says every grouping site classifies a
record as a discussion exactly when its component is (case-insensitively)
one of LAB, DIS, SEM, SPS, IND, PRA, TUT. But a `"SEM"` record is grouped
into `sections` by `SISProcessor.processClass` (because `isLectureSection`
counts SEM as a lecture) while `transformSISDataToCourses` counts `"SEM"`
as a discussion — the sites disagree — and `"IND"` is in the claimed
discussion set yet `transformSISDataToCourses` groups it as a section. -/
theorem c3_classification_counterexample :
    ((SISP.processSISResponse []
        [{ subject := "CS", catalog_nbr := "3240", component := "SEM",
           class_section := "001" }] "1262").map
      (fun d => (d.sections.length, d.discussions.length))) = [(1, 0)] ∧
    isDiscussionComponentServer "SEM" = true ∧
    specIsDiscussionComponent "SEM" = true ∧
    specIsDiscussionComponent "IND" = true ∧
    isDiscussionComponentServer "IND" = false ∧
    isLectureSection "IND" = false := by
  exact ⟨by decide, by decide, by decide, by decide, by decide, by decide⟩

/-- **C3 (amended).** The program has two different classification rules
rather than the claimed single one. (i) The `SISProcessor` normalizer groups
a record into `discussions` exactly when `isLectureSection` rejects its
component, i.e. when its uppercased component is not LEC/LECTURE/SEM/SEMINAR;
(ii) the `SISDataProcessor` normalizer applies the same `isLectureSection`
rule (to `cls.component || raw.component`); (iii) of the claimed
case-insensitive discussion codes, all but SEM (and its SEMINAR variant) are
indeed non-lecture under `isLectureSection`; and (iv)
`transformSISDataToCourses` uses the case-sensitive literal set
{DIS, LAB, SEM, SPS}, a proper subset of the claimed codes. -/
theorem c3_classification_amended :
    (∀ (item : SISClassItem) (term : String),
      ((SISP.processSISResponse [] [item] term).map
        (fun d => (d.sections.length, d.discussions.length))) =
        [if isLectureSection item.component then (1, 0) else (0, 1)]) ∧
    (∀ (cls : RawCls) (n : Int), cls.subject ≠ "" → jsParseInt cls.catalog_nbr = some n →
      n ≠ 0 → cls.raw.class_section ≠ "" →
      ((SDP.processSISData [cls]).map
        (fun c => (c.sections.length, c.discussions.length))) =
        [if isLectureSection (jsOr cls.component cls.raw.component) then (1, 0) else (0, 1)]) ∧
    (∀ c : String, specIsDiscussionComponent c = true →
      isLectureSection c = (jsToUpper c == "SEM")) ∧
    (∀ c : String, isDiscussionComponentServer c = true → specIsDiscussionComponent c = true) := by
  refine ⟨?_, ?_, ?_, ?_⟩
  · intro item term
    by_cases h : isLectureSection item.component
    · simp [SISP.processSISResponse, SISP.processClass, SISP.mapFindDoc,
        SISP.createCourseDocument, h]
    · simp [SISP.processSISResponse, SISP.processClass, SISP.mapFindDoc,
        SISP.createCourseDocument, h]
  · intro cls n h1 h2 h3 h4
    by_cases h : isLectureSection (jsOr cls.component cls.raw.component)
    · simp [SDP.processSISData, SDP.processClass, SDP.mapFind, h1, h2, h3, h4, h]
    · simp [SDP.processSISData, SDP.processClass, SDP.mapFind, h1, h2, h3, h4, h]
  · intro c h
    have hmem : jsToUpper c = "LAB" ∨ jsToUpper c = "DIS" ∨ jsToUpper c = "SEM" ∨
        jsToUpper c = "SPS" ∨ jsToUpper c = "IND" ∨ jsToUpper c = "PRA" ∨
        jsToUpper c = "TUT" := by
      simpa [specIsDiscussionComponent] using h
    unfold isLectureSection
    rcases hmem with h7 | h7 | h7 | h7 | h7 | h7 | h7 <;> rw [h7] <;> decide
  · intro c h
    have hmem : ((c = "DIS" ∨ c = "LAB") ∨ c = "SEM") ∨ c = "SPS" := by
      simpa [isDiscussionComponentServer] using h
    rcases hmem with ((h4 | h4) | h4) | h4 <;> subst h4 <;> decide

/-- Witness for C3 (amended): at concrete records, the SISProcessor puts a
LAB into discussions and a LEC into sections, and the SISDataProcessor does
the same. -/
theorem c3_classification_amended_witness :
    ((SISP.processSISResponse []
        [{ subject := "CS", catalog_nbr := "3140", component := "LAB",
           class_section := "100" }] "1262").map
      (fun d => (d.sections.length, d.discussions.length))) = [(0, 1)] ∧
    ((SDP.processSISData
        [{ subject := "CS", catalog_nbr := "3140", component := "LEC",
           raw := { class_section := "001" } }]).map
      (fun c => (c.sections.length, c.discussions.length))) = [(1, 0)] := by
  constructor
  · have h := (c3_classification_amended.1
      { subject := "CS", catalog_nbr := "3140", component := "LAB",
        class_section := "100" } "1262")
    rw [h]
    decide
  · have h := (c3_classification_amended.2.1
      { subject := "CS", catalog_nbr := "3140", component := "LEC",
        raw := { class_section := "001" } } 3140
      (by decide) (by decide) (by decide) (by decide))
    rw [h]
    decide

/-!
## C4 — enrollment-status computation
-/

/-- **C4, counterexample.** The claim says status computation only ever
produces "Wait List" / "Open" / "Closed" by the stated rule, at every status
site. But `SISDataProcessor.determineStatus` returns `"Full"` for a record
with no status description whose enrollment has reached capacity, and
`SISProcessor.determineStatus` returns the raw `enrl_stat_descr` verbatim
(here "Enrollment Stopped"). -/
theorem c4_status_counterexample :
    sdpDetermineStatus "" 30 30 = "Full" ∧
    ("Full" : String) ≠ "Wait List" ∧ ("Full" : String) ≠ "Open" ∧
    ("Full" : String) ≠ "Closed" ∧
    sispDetermineStatus "" "Enrollment Stopped" "5" = "Enrollment Stopped" := by
  exact ⟨by decide, by decide, by decide, by decide, by decide⟩

/-- **C4 (amended).** Only `determineStatus` (`mongoHelpers.js`) and
`getEnrollmentStatus` (`server.js`) implement the claimed rule — "Wait List"
when the raw status code is `"W"`, else "Open" when parsed available seats
are positive, else "Closed" — and those two sites agree and never produce
another value. `SISProcessor.determineStatus` instead returns the raw
`enrl_stat_descr` verbatim when present (after its waitlist check), and
`SISDataProcessor.determineStatus` returns the raw description, `"Full"`, or
`"Open"`, never computing "Wait List" or "Closed" at all. -/
theorem c4_status_amended :
    (∀ available status : String,
      determineStatus available status =
        (if status = "W" then "Wait List"
         else if jsParseIntPos available then "Open" else "Closed") ∧
      (determineStatus available status = "Wait List" ∨
        determineStatus available status = "Open" ∨
        determineStatus available status = "Closed") ∧
      getEnrollmentStatus available status = determineStatus available status) ∧
    (∀ es esd ea : String,
      sispDetermineStatus es esd ea = "Wait List" ∨ sispDetermineStatus es esd ea = esd ∨
      sispDetermineStatus es esd ea = "Open" ∨ sispDetermineStatus es esd ea = "Closed") ∧
    (∀ (d : String) (e c : Nat),
      sdpDetermineStatus d e c = d ∨ sdpDetermineStatus d e c = "Full" ∨
      sdpDetermineStatus d e c = "Open") := by
  refine ⟨?_, ?_, ?_⟩
  · intro available status
    refine ⟨rfl, ?_, rfl⟩
    unfold determineStatus
    by_cases h1 : status = "W"
    · simp [h1]
    · by_cases h2 : jsParseIntPos available
      · simp [h1, h2]
      · simp [h1, h2]
  · intro es esd ea
    unfold sispDetermineStatus
    by_cases h1 : es = "W" ∨ esd = "Wait List"
    · simp [h1]
    · by_cases h2 : esd ≠ ""
      · simp [h1, h2]
      · by_cases h3 : jsParseIntOr ea 0 > 0
        · simp [h1, h2, h3]
        · simp [h1, h2, h3]
  · intro d e c
    unfold sdpDetermineStatus
    by_cases h1 : d ≠ ""
    · simp [h1]
    · by_cases h2 : e ≥ c
      · simp [h1, h2]
      · by_cases h3 : e > 0
        · simp [h1, h2, h3]
        · simp [h1, h2, h3]

/-!
## C5 — malformed records
-/

/-- A `SISDataProcessor` record missing a required identity field, or whose
catalog number does not parse to a nonzero integer, leaves the course map
untouched. -/
lemma sdp_processClass_skip (m : SDP.CourseMap) (cls : RawCls)
    (h : cls.subject = "" ∨ jsParseInt cls.catalog_nbr = none ∨
      jsParseInt cls.catalog_nbr = some 0 ∨ cls.raw.class_section = "") :
    SDP.processClass m cls = m := by
  unfold SDP.processClass
  rcases h with h | h | h | h
  · cases hn : jsParseInt cls.catalog_nbr with
    | none => simp [hn]
    | some n => simp [hn, h]
  · simp [h]
  · simp [h]
  · cases hn : jsParseInt cls.catalog_nbr with
    | none => simp [hn]
    | some n => simp [hn, h]

/-- **C5, counterexample.** The claim says a raw record missing a required
identity field is skipped with a warning and contributes nothing to any
Course aggregate. But `SISProcessor.processClass` (the current normalizer,
`utils/mongoHelpers.js` 259–278) has no such check: a record with a missing
subject still produces a course document — with an empty subject — in the
output batch. -/
theorem c5_malformed_skip_counterexample :
    ((SISP.processSISResponse []
        [{ subject := "", catalog_nbr := "1110", component := "LEC",
           class_section := "001" }] "1262").map (fun d => d.subject)) = [""] ∧
    (SISP.processSISResponse []
        [{ subject := "", catalog_nbr := "1110", component := "LEC",
           class_section := "001" }] "1262").length = 1 := by
  exact ⟨by decide, by decide⟩

/-- **C5 (amended).** Only `SISDataProcessor.processClass` implements the
skip policy: a record missing subject, a nonzero-parsable catalog number, or
section number leaves the course map untouched (skipped with a console
warning), and the rest of the batch is processed exactly as if the record
were absent — the batch never aborts. `SISProcessor.processClass` performs
no such check: every record, malformed or not, contributes a course
document; a record with a missing subject yields a document that only the
separate `validateCourseDocument` flags ("Missing subject"). -/
theorem c5_malformed_records_amended :
    (∀ (m : SDP.CourseMap) (cls : RawCls),
      (cls.subject = "" ∨ jsParseInt cls.catalog_nbr = none ∨
        jsParseInt cls.catalog_nbr = some 0 ∨ cls.raw.class_section = "") →
      SDP.processClass m cls = m) ∧
    (∀ (pre post : List RawCls) (bad : RawCls),
      (bad.subject = "" ∨ jsParseInt bad.catalog_nbr = none ∨
        jsParseInt bad.catalog_nbr = some 0 ∨ bad.raw.class_section = "") →
      SDP.processSISData (pre ++ bad :: post) = SDP.processSISData (pre ++ post)) ∧
    (∀ (item : SISClassItem) (term : String),
      (SISP.processSISResponse [] [item] term).length = 1) ∧
    (∀ (item : SISClassItem) (term : String), item.subject = "" →
      ∀ d ∈ SISP.processSISResponse [] [item] term,
        "Missing subject" ∈ SISP.validateCourseDocument d) := by
  refine ⟨sdp_processClass_skip, ?_, ?_, ?_⟩
  · intro pre post bad h
    unfold SDP.processSISData
    rw [List.foldl_append, List.foldl_append, List.foldl_cons,
      sdp_processClass_skip _ bad h]
  · intro item term
    by_cases h : isLectureSection item.component
    · simp [SISP.processSISResponse, SISP.processClass, SISP.mapFindDoc, h]
    · simp [SISP.processSISResponse, SISP.processClass, SISP.mapFindDoc, h]
  · intro item term hsub d hd
    by_cases h : isLectureSection item.component
    · simp [SISP.processSISResponse, SISP.processClass, SISP.mapFindDoc, h] at hd
      subst hd
      simp [SISP.validateCourseDocument, SISP.createCourseDocument, hsub]
    · simp [SISP.processSISResponse, SISP.processClass, SISP.mapFindDoc, h] at hd
      subst hd
      simp [SISP.validateCourseDocument, SISP.createCourseDocument, hsub]

/-- Witness for C5 (amended): a record with an empty section number is
skipped by `SISDataProcessor` both alone and inside a batch, while
`SISProcessor` still counts one document for a subject-less record, which
`validateCourseDocument` flags. -/
theorem c5_malformed_records_amended_witness :
    SDP.processClass [] { subject := "CS", catalog_nbr := "1110" } = [] ∧
    SDP.processSISData
      [{ subject := "CS", catalog_nbr := "2120", raw := { class_section := "001" } },
       { subject := "CS", catalog_nbr := "1110" }] =
      SDP.processSISData
        [{ subject := "CS", catalog_nbr := "2120", raw := { class_section := "001" } }] ∧
    (SISP.processSISResponse []
      [{ subject := "", catalog_nbr := "1110", class_section := "001" }] "1262").length = 1 ∧
    ∀ d ∈ SISP.processSISResponse []
        [{ subject := "", catalog_nbr := "1110", class_section := "001" }] "1262",
      "Missing subject" ∈ SISP.validateCourseDocument d := by
  refine ⟨?_, ?_, ?_, ?_⟩
  · exact c5_malformed_records_amended.1 [] { subject := "CS", catalog_nbr := "1110" }
      (by right; right; right; decide)
  · have h := c5_malformed_records_amended.2.1
      [{ subject := "CS", catalog_nbr := "2120", raw := { class_section := "001" } }]
      [] { subject := "CS", catalog_nbr := "1110" } (by right; right; right; decide)
    simpa using h
  · exact c5_malformed_records_amended.2.2.1
      { subject := "", catalog_nbr := "1110", class_section := "001" } "1262"
  · exact c5_malformed_records_amended.2.2.2
      { subject := "", catalog_nbr := "1110", class_section := "001" } "1262" rfl

/-!
## C6 — unscheduled markers and zero times
-/

/-- **C6, counterexample.** The claim says empty/"TBA" times normalize to an
explicit "unscheduled" marker and never to a zero time value
indistinguishable from midnight. In fact both normalizers map empty/"TBA"
times to the integer `0` — and genuine midnight (`"00.00.00.000000"`) maps
to the very same `0`, so the marker is exactly a zero time value
indistinguishable from midnight. -/
theorem c6_unscheduled_time_counterexample :
    SDP.convertTimeTo24Hour "" = 0 ∧
    SDP.convertTimeTo24Hour "00.00.00.000000" = 0 ∧
    mhParseTime "TBA" = 0 ∧
    mhParseTime "" = 0 ∧
    mhParseTime "00.00.00.000000" = 0 := by
  exact ⟨by decide, by decide, by decide, by decide, by decide⟩

/-- **C6 (amended).** A record with no meetings normalizes to the time pair
`(0, 0)` and empty/"TBA" meeting days to the empty day list; empty and
`"TBA"` time strings normalize to the integer `0`, which the display layer
(`Section.getTimeRange`) renders as `"TBA"`. This zero marker, however, is
**not** distinguishable from midnight: `"00.00.00.000000"` normalizes to the
same `0` in both `convertTimeTo24Hour` and `mongoHelpers.parseTime`. -/
theorem c6_unscheduled_marker_amended :
    (∀ raw : RawInner, raw.meetings = [] → SDP.parseTime raw = (0, 0)) ∧
    (∀ (raw : RawInner) (meeting : SISMeeting) (rest : List SISMeeting),
      raw.meetings = meeting :: rest → (meeting.days = "" ∨ meeting.days = "TBA") →
      SDP.parseDays raw = []) ∧
    (SISP.parseDays "" = [] ∧ SISP.parseDays "TBA" = []) ∧
    (SDP.convertTimeTo24Hour "" = 0 ∧ mhParseTime "" = 0 ∧ mhParseTime "TBA" = 0) ∧
    (SDP.convertTimeTo24Hour "00.00.00.000000" = SDP.convertTimeTo24Hour "" ∧
      mhParseTime "00.00.00.000000" = mhParseTime "TBA") ∧
    (∀ s : ModelSection, s.startTime = 0 → modelSectionIsTBARange s = true) := by
  refine ⟨?_, ?_, ⟨by decide, by decide⟩, ⟨by decide, by decide, by decide⟩,
    ⟨by decide, by decide⟩, ?_⟩
  · intro raw h
    unfold SDP.parseTime
    rw [h]
  · intro raw meeting rest h hd
    unfold SDP.parseDays
    rw [h]
    rcases hd with hd | hd <;> simp [hd]
  · intro s h
    simp [modelSectionIsTBARange, h]

/-- Witness for C6 (amended): a concrete meeting-less record normalizes to
the `(0, 0)` time pair, a `"TBA"`-days meeting to the empty day list, and a
zero start time is rendered as the `"TBA"` range. -/
theorem c6_unscheduled_marker_amended_witness :
    SDP.parseTime {} = (0, 0) ∧
    SDP.parseDays { meetings := [{ days := "TBA" }] } = [] ∧
    modelSectionIsTBARange { sectionNumber := "001" } = true := by
  refine ⟨c6_unscheduled_marker_amended.1 {} rfl, ?_, ?_⟩
  · exact c6_unscheduled_marker_amended.2.1 { meetings := [{ days := "TBA" }] }
      { days := "TBA" } [] rfl (Or.inr rfl)
  · exact c6_unscheduled_marker_amended.2.2.2.2.2 { sectionNumber := "001" } rfl

/-!
## Supporting lemmas for the upserter (C7, C8, C10)
-/

lemma storeMapSelf (st : Store) (f : CourseDoc → CourseDoc) (h : ∀ d ∈ st, f d = d) :
    st.map f = st := by
  induction st with
  | nil => rfl
  | cons d rest ih =>
    rw [List.map_cons, h d (by simp), ih (fun e he => h e (by simp [he]))]

/-- A fresh run of the bulk-upsert loop: when every batch key is absent from
the store, the batch keys are unique and no store call fails, every document
is appended and counted as `inserted`. -/
lemma bulkLoop_fresh (fails : CourseDoc → Option String) :
    ∀ (docs : List CourseDoc) (st : Store) (s : UpsertStats),
      (docs.map docKey).Nodup →
      (∀ d ∈ docs, storeFindOne st (docKey d) = none) →
      (∀ d ∈ docs, fails d = none) →
      docs.foldl (bulkUpsertStep fails) (st, s) =
        (st ++ docs, { s with inserted := s.inserted + docs.length }) := by
  intro docs
  induction docs with
  | nil => intro st s _ _ _; simp
  | cons d rest ih =>
    intro st s hnodup hfree hok
    rw [List.foldl_cons]
    have hf : storeFindOne st (docKey d) = none := hfree d (by simp)
    have hstep : bulkUpsertStep fails (st, s) d =
        (st ++ [d], { s with inserted := s.inserted + 1 }) := by
      unfold bulkUpsertStep
      rw [hok d (by simp)]
      have hf2 : st.find? (fun x => docKey x = docKey d) = none := hf
      simp [storeUpsert, storeFindOne, hf2]
    rw [hstep]
    rw [List.map_cons, List.nodup_cons] at hnodup
    have hrest := ih (st ++ [d]) { s with inserted := s.inserted + 1 } hnodup.2
      (fun e he => by
        unfold storeFindOne
        rw [List.find?_append]
        have h1 : st.find? (fun x => docKey x = docKey e) = none := hfree e (by simp [he])
        have h2 : ([d].find? (fun x => docKey x = docKey e)) = none := by
          have hne : docKey d ≠ docKey e := by
            intro hkey
            exact hnodup.1 (hkey ▸ List.mem_map_of_mem docKey he)
          simp [List.find?, hne]
        rw [h1, h2]
        rfl)
      (fun e he => hok e (by simp [he]))
    rw [hrest]
    have e1 : (st ++ [d]) ++ rest = st ++ d :: rest := by simp
    have e2 : s.inserted + 1 + rest.length = s.inserted + (d :: rest).length := by
      simp [List.length_cons]
      omega
    rw [e1, e2]

/-- A re-run of the bulk-upsert loop: when every batch document is already
persisted verbatim and uniquely bears its key, the store is unchanged and
every document is counted as `updated`. -/
lemma bulkLoop_rerun (fails : CourseDoc → Option String) :
    ∀ (docs : List CourseDoc) (st : Store) (s : UpsertStats),
      (docs.map docKey).Nodup →
      (∀ d ∈ docs, d ∈ st) →
      (∀ d ∈ docs, ∀ e ∈ st, docKey e = docKey d → e = d) →
      (∀ d ∈ docs, fails d = none) →
      docs.foldl (bulkUpsertStep fails) (st, s) =
        (st, { s with updated := s.updated + docs.length }) := by
  intro docs
  induction docs with
  | nil => intro st s _ _ _ _; simp
  | cons d rest ih =>
    intro st s hnodup hmem huniq hok
    rw [List.foldl_cons]
    have hsome : (storeFindOne st (docKey d)).isSome := by
      unfold storeFindOne
      exact List.find?_isSome.mpr ⟨d, hmem d (by simp), by simp⟩
    have hself : st.map (fun e => if docKey e = docKey d then d else e) = st := by
      apply storeMapSelf
      intro e he
      by_cases hkey : docKey e = docKey d
      · rw [if_pos hkey]
        exact (huniq d (by simp) e he hkey).symm
      · rw [if_neg hkey]
    have hstep : bulkUpsertStep fails (st, s) d =
        (st, { s with updated := s.updated + 1 }) := by
      unfold bulkUpsertStep
      rw [hok d (by simp)]
      simp only [hsome, if_pos]
      unfold storeUpsert
      unfold storeFindOne at hsome
      simp only [hsome, if_pos, hself]
    rw [hstep]
    rw [List.map_cons, List.nodup_cons] at hnodup
    have hrest := ih st { s with updated := s.updated + 1 } hnodup.2
      (fun e he => hmem e (by simp [he]))
      (fun e he x hx hkey => huniq e (by simp [he]) x hx hkey)
      (fun e he => hok e (by simp [he]))
    rw [hrest]
    have e2 : s.updated + 1 + rest.length = s.updated + (d :: rest).length := by
      simp [List.length_cons]
      omega
    rw [e2]

/-!
## C7 — idempotent double upsert
-/

/-- **C7.** For every enriched batch with pairwise-distinct
(term, subject, catalog_nbr) keys, upserted with the default options against
a store holding none of those keys and with no store failures: the first run
reports `inserted = N`, `updated = 0`, `failed = 0`; the second run of the
identical batch reports `inserted = 0`, `updated = N`; the store after the
second run is identical to the store after the first, which holds exactly
`N` net new documents. -/
theorem c7_idempotent_upsert (fails : CourseDoc → Option String) (st : Store)
    (docs : List CourseDoc) (s0 s1 : UpsertStats)
    (hnodup : (docs.map docKey).Nodup)
    (hfree : ∀ d ∈ docs, storeFindOne st (docKey d) = none)
    (hok : ∀ d ∈ docs, fails d = none) :
    (bulkUpsertCourses fails st docs s0).2.inserted = docs.length ∧
    (bulkUpsertCourses fails st docs s0).2.updated = 0 ∧
    (bulkUpsertCourses fails st docs s0).2.failed = 0 ∧
    (bulkUpsertCourses fails (bulkUpsertCourses fails st docs s0).1 docs s1).2.inserted = 0 ∧
    (bulkUpsertCourses fails (bulkUpsertCourses fails st docs s0).1 docs s1).2.updated =
      docs.length ∧
    (bulkUpsertCourses fails (bulkUpsertCourses fails st docs s0).1 docs s1).2.failed = 0 ∧
    (bulkUpsertCourses fails (bulkUpsertCourses fails st docs s0).1 docs s1).1 =
      (bulkUpsertCourses fails st docs s0).1 ∧
    (bulkUpsertCourses fails st docs s0).1.length = st.length + docs.length := by
  have h1 : bulkUpsertCourses fails st docs s0 =
      (st ++ docs, { resetStats with inserted := resetStats.inserted + docs.length }) := by
    unfold bulkUpsertCourses
    exact bulkLoop_fresh fails docs st resetStats hnodup hfree hok
  have hstnone : ∀ d ∈ docs, ∀ e ∈ st, docKey e ≠ docKey d := by
    intro d hd e he
    have := List.find?_eq_none.mp (hfree d hd) e he
    simpa using this
  have h2 : bulkUpsertCourses fails (st ++ docs) docs s1 =
      (st ++ docs, { resetStats with updated := resetStats.updated + docs.length }) := by
    unfold bulkUpsertCourses
    apply bulkLoop_rerun fails docs (st ++ docs) resetStats hnodup
    · intro d hd
      exact List.mem_append.mpr (Or.inr hd)
    · intro d hd e he hkey
      rcases List.mem_append.mp he with h | h
      · exact absurd hkey (hstnone d hd e h)
      · exact List.inj_on_of_nodup_map hnodup h hd hkey
    · exact hok
  rw [h1]
  refine ⟨by simp [resetStats], by simp [resetStats], by simp [resetStats], ?_, ?_, ?_, ?_,
    by simp⟩
  · rw [h2]
    simp [resetStats]
  · rw [h2]
    simp [resetStats]
  · rw [h2]
    simp [resetStats]
  · rw [h2]

/-- Witness for C7: the two-course batch against the empty store. -/
theorem c7_idempotent_upsert_witness :
    (bulkUpsertCourses (fun _ => none) [] [sampleDocA, sampleDocB] {}).2.inserted = 2 ∧
    (bulkUpsertCourses (fun _ => none) [] [sampleDocA, sampleDocB] {}).2.updated = 0 ∧
    (bulkUpsertCourses (fun _ => none)
      (bulkUpsertCourses (fun _ => none) [] [sampleDocA, sampleDocB] {}).1
      [sampleDocA, sampleDocB] {}).2.inserted = 0 ∧
    (bulkUpsertCourses (fun _ => none)
      (bulkUpsertCourses (fun _ => none) [] [sampleDocA, sampleDocB] {}).1
      [sampleDocA, sampleDocB] {}).2.updated = 2 ∧
    (bulkUpsertCourses (fun _ => none)
      (bulkUpsertCourses (fun _ => none) [] [sampleDocA, sampleDocB] {}).1
      [sampleDocA, sampleDocB] {}).1 =
      (bulkUpsertCourses (fun _ => none) [] [sampleDocA, sampleDocB] {}).1 ∧
    (bulkUpsertCourses (fun _ => none) [] [sampleDocA, sampleDocB] {}).1.length = 2 := by
  have h := c7_idempotent_upsert (fun _ => none) [] [sampleDocA, sampleDocB] {} {}
    (by decide) (by decide) (fun d _ => rfl)
  exact ⟨h.1, h.2.1, h.2.2.2.1, h.2.2.2.2.1, h.2.2.2.2.2.2.1, h.2.2.2.2.2.2.2⟩

/-!
## C8 — replaceExisting
-/

/-- **C8.** With `replaceExisting` set, `upsertSubject` first deletes every
persisted course matching (term, subject) and only then bulk-upserts the
batch; consequently, for any prior store contents and any batch of
distinct-keyed courses all carrying that (term, subject), the final
persisted count for that (term, subject) equals exactly the batch size. -/
theorem c8_replace_existing (fails : CourseDoc → Option String) (st : Store)
    (docs : List CourseDoc) (term subject : String) (s0 : UpsertStats)
    (hnodup : (docs.map docKey).Nodup)
    (hts : ∀ d ∈ docs, d.term = term ∧ d.subject = subject)
    (hok : ∀ d ∈ docs, fails d = none) :
    upsertSubject fails st docs term subject true s0 =
      bulkUpsertCourses fails (storeDeleteMany st term subject) docs s0 ∧
    ((upsertSubject fails st docs term subject true s0).1.filter
        (fun d => d.term = term ∧ d.subject = subject)).length = docs.length := by
  have hdel : upsertSubject fails st docs term subject true s0 =
      bulkUpsertCourses fails (storeDeleteMany st term subject) docs s0 := by
    unfold upsertSubject
    rfl
  refine ⟨hdel, ?_⟩
  have hsurvivor : ∀ e ∈ storeDeleteMany st term subject,
      ¬ (e.term = term ∧ e.subject = subject) := by
    intro e he
    have h := (List.mem_filter.mp he).2
    simp only [decide_eq_true_eq] at h
    exact h
  have hfree : ∀ d ∈ docs, storeFindOne (storeDeleteMany st term subject) (docKey d) = none := by
    intro d hd
    apply List.find?_eq_none.mpr
    intro e he
    simp only [decide_eq_true_eq]
    intro hkey
    have hde : e.term = d.term ∧ e.subject = d.subject := by
      unfold docKey at hkey
      exact ⟨congrArg (fun t => t.1) hkey, congrArg (fun t => t.2.1) hkey⟩
    rcases hts d hd with ⟨ht, hs⟩
    exact hsurvivor e he ⟨hde.1.trans ht, hde.2.trans hs⟩
  have h1 : bulkUpsertCourses fails (storeDeleteMany st term subject) docs s0 =
      (storeDeleteMany st term subject ++ docs,
        { resetStats with inserted := resetStats.inserted + docs.length }) := by
    unfold bulkUpsertCourses
    exact bulkLoop_fresh fails docs _ resetStats hnodup hfree hok
  rw [hdel, h1]
  simp only [List.filter_append]
  have h2 : (storeDeleteMany st term subject).filter
      (fun d => d.term = term ∧ d.subject = subject) = [] := by
    apply List.filter_eq_nil_iff.mpr
    intro e he
    simpa using hsurvivor e he
  have h3 : docs.filter (fun d => d.term = term ∧ d.subject = subject) = docs := by
    apply List.filter_eq_self.mpr
    intro d hd
    simpa using hts d hd
  rw [h2, h3]
  simp

/-- Witness for C8: two previously persisted CS courses plus a one-course
replacement batch leave exactly one CS course, not three. -/
theorem c8_replace_existing_witness :
    ((upsertSubject (fun _ => none) [staleDocC, sampleDocB] [sampleDocA]
        "1262" "CS" true {}).1.filter
      (fun d => d.term = "1262" ∧ d.subject = "CS")).length = 1 := by
  exact (c8_replace_existing (fun _ => none) [staleDocC, sampleDocB] [sampleDocA]
    "1262" "CS" {} (by decide) (by decide) (fun d _ => rfl)).2

/-!
## Supporting lemmas for the normalizer map (C9)
-/

lemma mapReplaceDoc_keys (m : SISP.DocMap) (k : String) (d : CourseDoc) :
    (SISP.mapReplaceDoc m k d).map Prod.fst = m.map Prod.fst := by
  unfold SISP.mapReplaceDoc
  rw [List.map_map]
  apply List.map_congr_left
  intro p _
  by_cases h : p.1 = k
  · simp [h]
  · simp [h]

lemma sisp_processClass_inv (m : SISP.DocMap) (c : SISClassItem) (term : String)
    (h : docMapInv m) : docMapInv (SISP.processClass m c term) := by
  unfold SISP.processClass
  cases hf : SISP.mapFindDoc m (c.subject ++ "-" ++ c.catalog_nbr) with
  | some dOld =>
    simp only [hf]
    have hkey : c.subject ++ "-" ++ c.catalog_nbr =
        dOld.subject ++ "-" ++ dOld.catalog_nbr := by
      unfold SISP.mapFindDoc at hf
      cases hq : m.find? (fun p => p.1 = c.subject ++ "-" ++ c.catalog_nbr) with
      | none => rw [hq] at hf; simp at hf
      | some q =>
        rw [hq] at hf
        simp only [Option.map_some'] at hf
        have hq1 : q.1 = c.subject ++ "-" ++ c.catalog_nbr := by
          have := List.find?_some hq
          simpa using this
        have hq2 := h.2 q (List.mem_of_find?_eq_some hq)
        injection hf with hf3
        rw [← hq1, hq2, hf3]
    constructor
    · rw [mapReplaceDoc_keys]
      exact h.1
    · intro p hp
      unfold SISP.mapReplaceDoc at hp
      rcases List.mem_map.mp hp with ⟨q, hq, hpq⟩
      by_cases hqk : q.1 = c.subject ++ "-" ++ c.catalog_nbr
      · rw [if_pos hqk] at hpq
        rw [← hpq]
        by_cases hl : isLectureSection c.component
        · simp only [if_pos hl]
          exact hkey
        · simp only [if_neg hl]
          exact hkey
      · rw [if_neg hqk] at hpq
        rw [← hpq]
        exact h.2 q hq
  | none =>
    simp only [hf]
    have hnotin : (c.subject ++ "-" ++ c.catalog_nbr) ∉ m.map Prod.fst := by
      intro hin
      rcases List.mem_map.mp hin with ⟨q, hq, hq1⟩
      unfold SISP.mapFindDoc at hf
      have := List.find?_eq_none.mp (by
        cases hq2 : m.find? (fun p => p.1 = c.subject ++ "-" ++ c.catalog_nbr) with
        | none => rfl
        | some r => rw [hq2] at hf; simp at hf) q hq
      simp [hq1] at this
    constructor
    · rw [List.map_append]
      simp only [List.map_cons, List.map_nil]
      rw [List.nodup_append]
      exact ⟨h.1, List.nodup_singleton _, by
        intro a ha hb
        simp only [List.mem_singleton] at hb
        rw [hb] at ha
        exact hnotin ha⟩
    · intro p hp
      rcases List.mem_append.mp hp with hp | hp
      · exact h.2 p hp
      · simp only [List.mem_singleton] at hp
        rw [hp]
        by_cases hl : isLectureSection c.component
        · simp [if_pos hl, SISP.createCourseDocument]
        · simp [if_neg hl, SISP.createCourseDocument]

lemma sisp_fold_inv (term : String) :
    ∀ (classes : List SISClassItem) (m : SISP.DocMap), docMapInv m →
      docMapInv (classes.foldl (fun acc c => SISP.processClass acc c term) m) := by
  intro classes
  induction classes with
  | nil => intro m h; exact h
  | cons c rest ih =>
    intro m h
    rw [List.foldl_cons]
    exact ih _ (sisp_processClass_inv m c term h)

/-!
## C9 — normalizer determinism and key uniqueness
-/

/-- **C9.** The normalizer is deterministic and state-independent:
`processSISResponse` clears the instance's course map first, so its output
is one and the same pure function of the batch and term regardless of any
state left by an earlier invocation (hence `normalize(R) == normalize(R)`
across repeated runs); and no two course documents in the output share a
grouping key — `subject`-`catalog_nbr` uniqueness is enforced by the map
construction itself. -/
theorem c9_normalizer_determinism (st1 st2 : SISP.DocMap) (classes : List SISClassItem)
    (term : String) :
    SISP.processSISResponse st1 classes term = SISP.processSISResponse st2 classes term ∧
    (SISP.processSISResponse st1 classes term).Pairwise
      (fun a b => ¬ (a.subject = b.subject ∧ a.catalog_nbr = b.catalog_nbr)) := by
  refine ⟨rfl, ?_⟩
  have hinv : docMapInv (classes.foldl (fun acc c => SISP.processClass acc c term) []) :=
    sisp_fold_inv term classes [] ⟨List.nodup_nil, by intro p hp; cases hp⟩
  set m := classes.foldl (fun acc c => SISP.processClass acc c term) [] with hm
  have hkeys : m.Pairwise (fun p q => p.1 ≠ q.1) := List.pairwise_map.mp hinv.1
  have hvals : m.Pairwise
      (fun p q => ¬ (p.2.subject = q.2.subject ∧ p.2.catalog_nbr = q.2.catalog_nbr)) := by
    refine hkeys.imp_of_mem ?_
    intro p q hp hq hne hcontra
    apply hne
    rw [hinv.2 p hp, hinv.2 q hq, hcontra.1, hcontra.2]
  show (m.map Prod.snd).Pairwise _
  exact List.pairwise_map.mpr hvals

/-!
## C10 — bulk-upsert statistics partition
-/

lemma bulkLoop_counts (fails : CourseDoc → Option String) :
    ∀ (docs : List CourseDoc) (acc : Store × UpsertStats),
      ((docs.foldl (bulkUpsertStep fails) acc).2.inserted +
          (docs.foldl (bulkUpsertStep fails) acc).2.updated +
          (docs.foldl (bulkUpsertStep fails) acc).2.failed =
        acc.2.inserted + acc.2.updated + acc.2.failed + docs.length) ∧
      ((docs.foldl (bulkUpsertStep fails) acc).2.errors.length + acc.2.failed =
        acc.2.errors.length + (docs.foldl (bulkUpsertStep fails) acc).2.failed) := by
  intro docs
  induction docs with
  | nil => intro acc; simp
  | cons d rest ih =>
    intro acc
    rw [List.foldl_cons]
    have hstep :
        ((bulkUpsertStep fails acc d).2.inserted + (bulkUpsertStep fails acc d).2.updated +
            (bulkUpsertStep fails acc d).2.failed =
          acc.2.inserted + acc.2.updated + acc.2.failed + 1) ∧
        ((bulkUpsertStep fails acc d).2.errors.length + acc.2.failed =
          acc.2.errors.length + (bulkUpsertStep fails acc d).2.failed) := by
      unfold bulkUpsertStep
      cases hf : fails d with
      | some msg => simp; omega
      | none =>
        by_cases hu : (storeFindOne acc.1 (docKey d)).isSome
        · simp [hu]
          omega
        · simp [hu]
          omega
    have hrest := ih (bulkUpsertStep fails acc d)
    constructor
    · rw [hrest.1, hstep.1]
      simp [List.length_cons]
      omega
    · have := hrest.2
      omega

/-- **C10.** `bulkUpsertCourses` with default options resets the statistics
on entry (the result is independent of the upserter's prior statistics
state), counts every course document of the batch in exactly one of
`inserted`, `updated`, or `failed` — a throwing store operation increments
`failed` with a recorded (course, message) error entry, and the loop
continues — so on completion `inserted + updated + failed` equals the batch
size and the error list has exactly `failed` entries. -/
theorem c10_bulk_upsert_stats (fails : CourseDoc → Option String) (st : Store)
    (docs : List CourseDoc) (s0 s1 : UpsertStats) :
    bulkUpsertCourses fails st docs s0 = bulkUpsertCourses fails st docs s1 ∧
    ((bulkUpsertCourses fails st docs s0).2.inserted +
        (bulkUpsertCourses fails st docs s0).2.updated +
        (bulkUpsertCourses fails st docs s0).2.failed = docs.length) ∧
    ((bulkUpsertCourses fails st docs s0).2.errors.length =
      (bulkUpsertCourses fails st docs s0).2.failed) := by
  refine ⟨rfl, ?_, ?_⟩
  · have h := (bulkLoop_counts fails docs (st, resetStats)).1
    unfold bulkUpsertCourses
    simpa [resetStats] using h
  · have h := (bulkLoop_counts fails docs (st, resetStats)).2
    unfold bulkUpsertCourses
    simpa [resetStats] using h
